import Mathlib

/-!
Verification model of the music bot (bot.py and music_service.py).

The development shallowly embeds the state and control flow of the bot that
the specification describes: the pagination keyboard builder, the three
in-memory caches, the download admission controller (a counting semaphore of
size MAX_CONCURRENT_DOWNLOADS plus an explicit queue list), the fetch
pipeline process_download, the lyrics message builder, and the download
coordinator download_song. External collaborators (the chat transport,
yt-dlp, the YTMusic client, the file system) are modelled as explicit
parameters: each possible outcome of a collaborator call is an input of the
embedded function, so each control-flow path of the source is a value of
the model. Python strings are modelled as List Char (Python len and slicing
count code points, as List Char does); Python dicts as functions into
Option; the file system as the list of existing paths.
-/

namespace MusicBot

/-- Page size for search-result pagination (SONGS_PER_PAGE in bot.py, line 27). -/
def SONGS_PER_PAGE : Nat := 5

/-- Search result count requested from the catalog (bot.py, line 28). -/
def TOTAL_SEARCH_RESULTS : Nat := 20

/-- Size of the download semaphore (bot.py, line 31). -/
def MAX_CONCURRENT_DOWNLOADS : Nat := 3

/-- A search result entry (dataclass Song in music_service.py). -/
structure Song where
  video_id : String
  title : String
  artist : String
  duration : String
  thumbnail : Option String
  deriving DecidableEq, Repr

/-- Python str.strip with no argument: drop leading and trailing whitespace. -/
def pyStrip (s : List Char) : List Char :=
  ((s.dropWhile Char.isWhitespace).reverse.dropWhile Char.isWhitespace).reverse

/-- Python slicing s[:k] for an arbitrary (possibly negative) integer bound k:
a nonnegative k keeps the first k characters, a negative k drops the last -k. -/
def pySliceTo (l : List Char) (k : Int) : List Char :=
  if 0 ≤ k then l.take k.toNat else l.take (l.length - (-k).toNat)

/-- bot.py lines 38-39: append the track id to download_queue; the reported
queue position is the length of the queue after the append. -/
def enqueueTrack (queue : List String) (video_id : String) : List String × Nat :=
  (queue ++ [video_id], (queue ++ [video_id]).length)

/-- What the admission controller tells the user about a new request. -/
inductive QueueReport where
  | running : QueueReport
  | waiting : Nat → QueueReport
  deriving DecidableEq, Repr

/-- bot.py lines 41-44: a position above MAX_CONCURRENT_DOWNLOADS is announced
as waiting slot position - MAX_CONCURRENT_DOWNLOADS, otherwise as running. -/
def reportFor (pos : Nat) : QueueReport :=
  if pos > MAX_CONCURRENT_DOWNLOADS then QueueReport.waiting (pos - MAX_CONCURRENT_DOWNLOADS)
  else QueueReport.running

/-- bot.py lines 241 and 278: song_metadata.get with the empty-string default
triple. -/
def metadataGet (m : String → Option (String × String × String)) (video_id : String) :
    String × String × String :=
  (m video_id).getD ("", "", "")

/-- bot.py lines 111-113: the visible button caption, truncated at 55. -/
def mkButtonText (song : Song) : String :=
  let t := song.artist ++ " • " ++ song.title
  if t.length > 55 then t.take 52 ++ "..." else t

/-- One result row of the keyboard: caption plus the two callback payloads. -/
structure SongRow where
  text : String
  dlData : String
  lyricsData : String
  deriving DecidableEq, Repr

/-- bot.py lines 116-125: the row built for one song. -/
def mkRow (song : Song) : SongRow :=
  ⟨mkButtonText song, "dl:" ++ song.video_id, "lyrics:" ++ song.video_id⟩

/-- The rendered reply keyboard: one row per song on the page, plus the
pagination row (back arrow, page label, forward arrow). -/
structure Keyboard where
  rows : List SongRow
  hasBack : Bool
  pageLabel : String
  hasForward : Bool
  deriving DecidableEq, Repr

/-- bot.py lines 101-148, build_results_keyboard: slice the page out of the
result list, upsert the metadata store for each song on the page, and build
the keyboard. The metadata store is threaded explicitly (the source mutates
the global dict song_metadata); the comparison page < total_pages - 1 is
taken over the integers, as Python computes it. -/
def build_results_keyboard (meta : String → Option (String × String × String))
    (songs : List Song) (page : Nat) :
    (String → Option (String × String × String)) × Keyboard :=
  let start_idx := page * SONGS_PER_PAGE
  let page_songs := (songs.drop start_idx).take SONGS_PER_PAGE
  let meta2 := page_songs.foldl
    (fun m song => fun i =>
      if i = song.video_id then some (song.title, song.artist, song.thumbnail.getD "")
      else m i)
    meta
  let total_pages := (songs.length + SONGS_PER_PAGE - 1) / SONGS_PER_PAGE
  (meta2,
    { rows := page_songs.map mkRow
      hasBack := decide (page > 0)
      pageLabel := toString (page + 1) ++ "/" ++ toString total_pages
      hasForward := decide ((page : Int) < (total_pages : Int) - 1) })

/-- The global mutable state of bot.py that the handlers touch: the three
caches, the download queue and the free permits of the download semaphore. -/
structure BotState where
  audio_cache : String → Option String
  song_metadata : String → Option (String × String × String)
  search_cache : Nat → Option (List Char × List Song)
  download_queue : List String
  semAvailable : Nat

/-- The externally visible effect of one search_handler run. -/
inductive SearchAction where
  | ignoredEmptyQuery : SearchAction
  | nothingFound : List Char → SearchAction
  | shownResults : List Char → Keyboard → SearchAction

/-- bot.py lines 177-207, search_handler: strip the text; an empty query
returns at once; an empty result list reports nothing found and returns
before the cache write; otherwise the search cache entry of the user is
overwritten and the page-0 keyboard is built (which upserts metadata).
The catalog call search_songs is an oracle parameter. -/
def search_handler (s : BotState) (user_id : Nat) (text : List Char)
    (search_songs : List Char → List Song) : BotState × SearchAction :=
  let query := pyStrip text
  if query = [] then (s, SearchAction.ignoredEmptyQuery)
  else
    let songs := search_songs query
    if songs = [] then (s, SearchAction.nothingFound query)
    else
      let s1 := { s with
        search_cache := fun u => if u = user_id then some (query, songs) else s.search_cache u }
      let mk := build_results_keyboard s1.song_metadata songs 0
      ({ s1 with song_metadata := mk.1 }, SearchAction.shownResults query mk.2)

/-- The externally visible effect of one download_handler run. -/
inductive DlAction where
  | fromCache : String → DlAction
  | spawnedPipeline : String → String → String → String → DlAction
  deriving DecidableEq, Repr

/-- bot.py lines 268-279, download_handler: a track id present in audio_cache
is answered straight from the cache and the handler returns; otherwise the
metadata is looked up (empty-string default) and the fetch pipeline task is
spawned. The spawned pipeline itself is process_download below; this handler
only records that it was started. -/
def download_handler (s : BotState) (video_id : String) : BotState × DlAction :=
  match s.audio_cache video_id with
  | some fid => (s, DlAction.fromCache fid)
  | none =>
    let m := metadataGet s.song_metadata video_id
    (s, DlAction.spawnedPipeline video_id m.1 m.2.1 m.2.2)

/-- The state the fetch pipeline reads and writes: the download queue, the
free semaphore permits, the set of files on disk and the audio cache. -/
structure PipeState where
  download_queue : List String
  semAvailable : Nat
  files : List String
  audio_cache : String → Option String

/-- How one process_download run ends. -/
inductive PipeExit where
  | completed : PipeExit
  | failedDownload : PipeExit
  | exnAnswer : PipeExit
  | exnDownload : PipeExit
  | exnDeliver : PipeExit
  deriving DecidableEq, Repr

/-- Outcome of the download_song call as seen by process_download: a path to
a created file, None, or an exception propagating out of the call. -/
inductive DlResult where
  | got : String → DlResult
  | noFile : DlResult
  | raised : DlResult
  deriving DecidableEq, Repr

/-- Outcome of the best-effort thumbnail fetch (bot.py lines 61-71): either a
temp file was created, or nothing was (empty thumbnail URL, non-200 status,
or an exception swallowed by the bare except). -/
inductive ThumbResult where
  | fetched : String → ThumbResult
  | noThumb : ThumbResult
  deriving DecidableEq, Repr

/-- Outcome of the answer_audio delivery call: a message carrying an audio
file id, a message without one, or an exception. -/
inductive SendResult where
  | sentAudio : String → SendResult
  | sentNoAudio : SendResult
  | sendRaised : SendResult
  deriving DecidableEq, Repr

/-- music_service.py lines 203-209, cleanup_file: remove the file if it
exists; a missing file is tolerated and nothing is raised (the model returns
the file list unchanged). -/
def cleanup_file (files : List String) (filepath : String) : List String :=
  if filepath ∈ files then files.erase filepath else files

/-- bot.py lines 36-98, process_download, one run with every collaborator
outcome given as a parameter. Control flow follows the source line by line:
append to the queue and compute the position; answer the position notice
(which may raise, before the semaphore is touched); enter the async with
block, taking one permit, which is given back on every exit from the block;
run download_song; if it returned a path, the file now exists; remove the id
from the queue if present; on None answer the failure notice and return; in
the try block fetch the thumbnail (creating a second temp file when it
succeeds) and deliver; cache the file id when the sent message carries audio;
the finally block always runs cleanup_file on the audio path and a tolerant
remove of the thumbnail path. -/
def process_download (s : PipeState) (video_id : String)
    (answerRaises : Bool) (dl : DlResult) (thumb : ThumbResult) (send : SendResult) :
    PipeState × PipeExit :=
  let q1 := (enqueueTrack s.download_queue video_id).1
  if answerRaises then
    ({ s with download_queue := q1 }, PipeExit.exnAnswer)
  else
    let semHeld := s.semAvailable - 1
    match dl with
    | DlResult.raised =>
        ({ s with download_queue := q1, semAvailable := semHeld + 1 }, PipeExit.exnDownload)
    | DlResult.noFile =>
        let q2 := if video_id ∈ q1 then q1.erase video_id else q1
        ({ s with download_queue := q2, semAvailable := semHeld + 1 }, PipeExit.failedDownload)
    | DlResult.got filepath =>
        let files1 := s.files ++ [filepath]
        let q2 := if video_id ∈ q1 then q1.erase video_id else q1
        let tf :=
          match thumb with
          | ThumbResult.fetched tp => (some tp, files1 ++ [tp])
          | ThumbResult.noThumb => ((none : Option String), files1)
        let filesFinal :=
          match tf.1 with
          | some tp => (cleanup_file tf.2 filepath).erase tp
          | none => cleanup_file tf.2 filepath
        match send with
        | SendResult.sendRaised =>
            ({ download_queue := q2, semAvailable := semHeld + 1, files := filesFinal,
               audio_cache := s.audio_cache }, PipeExit.exnDeliver)
        | SendResult.sentAudio fid =>
            ({ download_queue := q2, semAvailable := semHeld + 1, files := filesFinal,
               audio_cache := fun i => if i = video_id then some fid else s.audio_cache i },
             PipeExit.completed)
        | SendResult.sentNoAudio =>
            ({ download_queue := q2, semAvailable := semHeld + 1, files := filesFinal,
               audio_cache := s.audio_cache }, PipeExit.completed)

/-- bot.py line 256: the header of the lyrics message. -/
def lyricsHeader (artist title : List Char) : List Char :=
  "📝 <b>".toList ++ artist ++ " - ".toList ++ title ++ "</b>\n\n".toList

/-- bot.py lines 255-263, lyrics_handler tail: compute max_lyrics_len as the
integer 4000 - len(header); when the lyrics are longer, replace them by the
Python slice up to max_lyrics_len followed by an ellipsis; send header plus
lyrics. -/
def lyricsMessage (artist title lyrics : List Char) : List Char :=
  let header := lyricsHeader artist title
  let max_lyrics_len : Int := 4000 - (header.length : Int)
  let lyrics2 :=
    if (lyrics.length : Int) > max_lyrics_len
    then pySliceTo lyrics max_lyrics_len ++ "...".toList
    else lyrics
  header ++ lyrics2

/-- music_service.py line 97: the characters removed by sanitize_filename. -/
def invalid_chars : List Char := "<>:\"/\\|?*".toList

/-- music_service.py lines 95-100, sanitize_filename: delete every occurrence
of each invalid character, then strip. -/
def sanitize_filename (name : List Char) : List Char :=
  pyStrip (name.filter (fun c => !(invalid_chars.contains c)))

/-- music_service.py lines 116-127: the mp3 path download_song aims at
(os.path.join of DOWNLOAD_PATH, taken as an abstract prefix, with the
sanitized filename). -/
def finalPath (download_path video_id title artist : List Char) : List Char :=
  let filename :=
    if title ≠ [] ∧ artist ≠ [] then
      sanitize_filename (artist ++ " - ".toList ++ title)
    else if title ≠ [] then sanitize_filename title
    else video_id
  download_path ++ "/".toList ++ filename ++ ".mp3".toList

/-- music_service.py lines 141-192, the _download closure: the try block
(the yt-dlp invocation plus the best-effort ID3 tagging, whose own failures
are caught inside the block) is an oracle over the file system. An ok fs
outcome means the block ran to completion leaving files fs, and the closure
returns final_path; an error fs outcome means some step raised, the except
clause caught it and the closure returns None, leaving files fs behind.
Either way no exception escapes the closure. -/
def runDownloadClosure (attempt : Except (List (List Char)) (List (List Char)))
    (fp : List Char) : List (List Char) × Option (List Char) :=
  match attempt with
  | Except.ok fs => (fs, some fp)
  | Except.error fs => (fs, none)

/-- music_service.py lines 103-200, download_song: run the closure in the
executor, then return the path only when the returned value is non-None and
a file exists at that path; otherwise return None. The returned file list is
the state of the disk at return time. -/
def download_song (attempt : Except (List (List Char)) (List (List Char)))
    (download_path video_id title artist : List Char) :
    List (List Char) × Option (List Char) :=
  let fp := finalPath download_path video_id title artist
  let r := runDownloadClosure attempt fp
  match r with
  | (fs, some p) => if p ∈ fs then (fs, some p) else (fs, none)
  | (fs, none) => (fs, none)

/-- Phase of one download task with respect to the admission controller:
not yet arrived; enqueued and waiting on the semaphore; holding an admission
slot (past the acquire, before the release); finished (slot given back). -/
inductive Phase where
  | idle : Phase
  | queued : Phase
  | holding : Phase
  | finished : Phase
  deriving DecidableEq, Repr

/-- Global scheduler state for the admission controller: the free permits of
download_semaphore plus the phase of every download task. -/
structure Sys where
  sem : Nat
  tasks : List Phase
  deriving DecidableEq, Repr

/-- Interleaving semantics of the admission-relevant suspension points of
process_download over asyncio.Semaphore: an idle task may enqueue; a queued
task may pass the semaphore acquire only when a permit is free, consuming
it; a holding task releases its permit when the async with block exits. -/
inductive Step : Sys → Sys → Prop where
  | enqueue (s : Sys) (i : Nat) (h : i < s.tasks.length)
      (hp : s.tasks.get ⟨i, h⟩ = Phase.idle) :
      Step s ⟨s.sem, s.tasks.set i Phase.queued⟩
  | acquire (s : Sys) (i : Nat) (h : i < s.tasks.length)
      (hp : s.tasks.get ⟨i, h⟩ = Phase.queued) (k : Nat) (hs : s.sem = k + 1) :
      Step s ⟨k, s.tasks.set i Phase.holding⟩
  | release (s : Sys) (i : Nat) (h : i < s.tasks.length)
      (hp : s.tasks.get ⟨i, h⟩ = Phase.holding) :
      Step s ⟨s.sem + 1, s.tasks.set i Phase.finished⟩

/-- States reachable from a start state with MAX_CONCURRENT_DOWNLOADS free
permits and any number of not-yet-arrived tasks. -/
inductive Reach : Sys → Prop where
  | init (tasks : List Phase) (h : ∀ p ∈ tasks, p = Phase.idle) :
      Reach ⟨MAX_CONCURRENT_DOWNLOADS, tasks⟩
  | step (s s2 : Sys) (hr : Reach s) (hs : Step s s2) : Reach s2

/-- Number of tasks currently holding an admission slot. -/
def holdersCount (s : Sys) : Nat := s.tasks.count Phase.holding

/-- A sample song used in concrete states. -/
def exSong : Song :=
  { video_id := "vid1", title := "Song", artist := "Artist", duration := "3:00",
    thumbnail := none }

/-- A concrete bot state whose search cache holds an old entry for user 7. -/
def exState : BotState :=
  { audio_cache := fun _ => none
    song_metadata := fun _ => none
    search_cache := fun u => if u = 7 then some ("old".toList, [exSong]) else none
    download_queue := []
    semAvailable := MAX_CONCURRENT_DOWNLOADS }

/-- A concrete bot state whose audio cache holds an entry for id vid1. -/
def exCachedState : BotState :=
  { audio_cache := fun i => if i = "vid1" then some "file9" else none
    song_metadata := fun _ => none
    search_cache := fun _ => none
    download_queue := []
    semAvailable := MAX_CONCURRENT_DOWNLOADS }

/-- A concrete pipeline state: empty queue, all permits free, empty disk. -/
def exPipeState : PipeState :=
  { download_queue := []
    semAvailable := MAX_CONCURRENT_DOWNLOADS
    files := []
    audio_cache := fun _ => none }

/-- The over-long artist name used against the lyrics length bound. -/
def exLongArtist : List Char := List.replicate 4001 'a'

/-- C3: enqueueTrack appends the track id and returns its 1-based position in
the full running plus waiting queue; a position at most
MAX_CONCURRENT_DOWNLOADS is reported as running, a larger position k as
waiting at k - MAX_CONCURRENT_DOWNLOADS, so the request arriving on a queue
that already holds MAX_CONCURRENT_DOWNLOADS ids is reported as waiting
position 1. -/
theorem enqueue_position_spec (queue : List String) (video_id : String) :
    (enqueueTrack queue video_id).1 = queue ++ [video_id] ∧
    (enqueueTrack queue video_id).2 = queue.length + 1 ∧
    ((enqueueTrack queue video_id).2 ≤ MAX_CONCURRENT_DOWNLOADS →
      reportFor (enqueueTrack queue video_id).2 = QueueReport.running) ∧
    (MAX_CONCURRENT_DOWNLOADS < (enqueueTrack queue video_id).2 →
      reportFor (enqueueTrack queue video_id).2 =
        QueueReport.waiting ((enqueueTrack queue video_id).2 - MAX_CONCURRENT_DOWNLOADS)) ∧
    (queue.length = MAX_CONCURRENT_DOWNLOADS →
      reportFor (enqueueTrack queue video_id).2 = QueueReport.waiting 1) := by
  have hlen : (enqueueTrack queue video_id).2 = queue.length + 1 := by
    simp [enqueueTrack]
  refine ⟨rfl, hlen, ?_, ?_, ?_⟩
  · intro h
    rw [reportFor, if_neg (by omega)]
  · intro h
    rw [reportFor, if_pos (by omega)]
  · intro h
    rw [reportFor, if_pos (by omega), hlen, h]
    norm_num [MAX_CONCURRENT_DOWNLOADS]

/-- Witness for C3: on a queue already holding three ids, the fourth request
is announced as waiting position 1. -/
theorem enqueue_position_spec_witness :
    reportFor (enqueueTrack ["a", "b", "c"] "d").2 = QueueReport.waiting 1 :=
  (enqueue_position_spec ["a", "b", "c"] "d").2.2.2.2 (by decide)

/-- C4: the page keyboard shows exactly the songs with indices in the window
from page times SONGS_PER_PAGE (inclusive) to the minimum of that plus
SONGS_PER_PAGE and the result count (exclusive), in order; the back button is
present iff the page index is positive; the forward button is present iff a
further nonempty page follows, which is exactly the integer comparison
page < ceiling(R / SONGS_PER_PAGE) - 1 the claim states. -/
theorem build_results_keyboard_spec
    (meta : String → Option (String × String × String)) (songs : List Song) (page : Nat) :
    (∀ i : Nat, (build_results_keyboard meta songs page).2.rows[i]? =
        if i < SONGS_PER_PAGE then (songs[page * SONGS_PER_PAGE + i]?).map mkRow else none) ∧
    ((build_results_keyboard meta songs page).2.hasBack = true ↔ 0 < page) ∧
    ((build_results_keyboard meta songs page).2.hasForward = true ↔
      SONGS_PER_PAGE * (page + 1) < songs.length) := by
  refine ⟨?_, ?_, ?_⟩
  · intro i
    simp only [build_results_keyboard, List.getElem?_map]
    by_cases hi : i < SONGS_PER_PAGE
    · rw [if_pos hi, List.getElem?_take_of_lt hi, List.getElem?_drop]
    · rw [if_neg hi]
      have hle : ((songs.drop (page * SONGS_PER_PAGE)).take SONGS_PER_PAGE).length ≤ i := by
        have := List.length_take SONGS_PER_PAGE (songs.drop (page * SONGS_PER_PAGE))
        omega
      rw [List.getElem?_eq_none hle]
      rfl
  · simp [build_results_keyboard]
  · simp only [build_results_keyboard, decide_eq_true_eq, SONGS_PER_PAGE]
    omega

/-- C7: the metadata lookup never fails: a present id yields the stored
triple, an absent one the empty-string placeholder triple. -/
theorem metadata_get_total (m : String → Option (String × String × String))
    (video_id : String) :
    (∀ t, m video_id = some t → metadataGet m video_id = t) ∧
    (m video_id = none → metadataGet m video_id = ("", "", "")) := by
  constructor
  · intro t ht
    simp [metadataGet, ht]
  · intro h
    simp [metadataGet, h]

/-- Witness for C7: a store holding one id answers that id with the stored
triple and any other id with the placeholder triple. -/
theorem metadata_get_total_witness :
    metadataGet (fun i => if i = "v1" then some ("T", "A", "U") else none) "v1"
        = ("T", "A", "U") ∧
    metadataGet (fun i => if i = "v1" then some ("T", "A", "U") else none) "v2"
        = ("", "", "") := by
  constructor
  · exact (metadata_get_total (fun i => if i = "v1" then some ("T", "A", "U") else none)
      "v1").1 ("T", "A", "U") (by simp)
  · exact (metadata_get_total (fun i => if i = "v1" then some ("T", "A", "U") else none)
      "v2").2 (by simp)

/-- Counterexample to C5 as stated: a newer search whose result set is empty
does not replace the older cached pair. User 7 has a cached pair for the
query old; a search for the query new that returns no results leaves the old
pair in the cache (search_handler returns before the cache write), while the
claim requires the pair to be replaced. -/
theorem search_cache_empty_result_counterexample :
    (search_handler exState 7 "new".toList (fun _ => [])).1.search_cache 7
      = some ("old".toList, [exSong]) ∧
    ("old".toList : List Char) ≠ "new".toList := by
  constructor
  · rfl
  · decide

/-- C5 amended: per user the cache holds at most one query/result pair (it is
a map from user id to one optional pair), and a newer search with a nonempty
stripped query and a nonempty result list unconditionally replaces the older
pair; but a search returning no results, or one whose stripped query is
empty, returns before the cache write and leaves the cache unchanged. Other
users are never affected. -/
theorem search_cache_replacement (s : BotState) (user_id : Nat) (text : List Char)
    (search_songs : List Char → List Song) :
    (pyStrip text ≠ [] → search_songs (pyStrip text) ≠ [] →
      (search_handler s user_id text search_songs).1.search_cache user_id
        = some (pyStrip text, search_songs (pyStrip text))) ∧
    (search_songs (pyStrip text) = [] →
      (search_handler s user_id text search_songs).1.search_cache = s.search_cache) ∧
    (pyStrip text = [] →
      (search_handler s user_id text search_songs).1.search_cache = s.search_cache) ∧
    (∀ u, u ≠ user_id →
      (search_handler s user_id text search_songs).1.search_cache u
        = s.search_cache u) := by
  refine ⟨?_, ?_, ?_, ?_⟩
  · intro hq hr
    simp [search_handler, hq, hr]
  · intro hr
    by_cases hq : pyStrip text = []
    · simp [search_handler, hq]
    · simp [search_handler, hq, hr]
  · intro hq
    simp [search_handler, hq]
  · intro u hu
    by_cases hq : pyStrip text = []
    · simp [search_handler, hq]
    · by_cases hr : search_songs (pyStrip text) = []
      · simp [search_handler, hq, hr]
      · simp [search_handler, hq, hr, hu]

/-- Witness for C5 amended: a nonempty search by user 7 replaces the old
cached pair. -/
theorem search_cache_replacement_witness :
    (search_handler exState 7 "new".toList (fun _ => [exSong])).1.search_cache 7
      = some ("new".toList, [exSong]) :=
  (search_cache_replacement exState 7 "new".toList (fun _ => [exSong])).1
    (by decide) (by intro h; cases h)

/-- C6: a download request whose track id is already in the audio cache is
answered from the cache: the handler returns with the state unchanged (queue,
semaphore and all caches untouched) and does not spawn the fetch pipeline. -/
theorem download_cached_short_circuit (s : BotState) (video_id fid : String)
    (h : s.audio_cache video_id = some fid) :
    download_handler s video_id = (s, DlAction.fromCache fid) := by
  simp [download_handler, h]

/-- Witness for C6 at a concrete state with a cached artifact. -/
theorem download_cached_short_circuit_witness :
    download_handler exCachedState "vid1" = (exCachedState, DlAction.fromCache "file9") :=
  download_cached_short_circuit exCachedState "vid1" "file9" (by simp [exCachedState])

/-- C10: download_song is a total function of the collaborator outcome (the
closure catches every exception, so none propagates); it returns a path only
when that path is the computed mp3 target and a file exists there at return
time, and it returns None whenever the closure failed. -/
theorem download_song_safe (attempt : Except (List (List Char)) (List (List Char)))
    (download_path video_id title artist : List Char) :
    (∀ p, (download_song attempt download_path video_id title artist).2 = some p →
      p ∈ (download_song attempt download_path video_id title artist).1 ∧
      p = finalPath download_path video_id title artist) ∧
    (∀ fs, attempt = Except.error fs →
      (download_song attempt download_path video_id title artist).2 = none) := by
  constructor
  · intro p hp
    cases attempt with
    | ok fs =>
      by_cases hmem : finalPath download_path video_id title artist ∈ fs
      · simp [download_song, runDownloadClosure, hmem] at hp ⊢
        exact ⟨hp ▸ hmem, hp.symm⟩
      · simp [download_song, runDownloadClosure, hmem] at hp
    | error fs =>
      simp [download_song, runDownloadClosure] at hp
  · intro fs hfs
    subst hfs
    simp [download_song, runDownloadClosure]

/-- Witness for C10: with the target file present the path is returned and
exists; the hypothesis of the theorem is discharged by computation. -/
theorem download_song_safe_witness :
    ("d/v.mp3".toList ∈
      (download_song (Except.ok ["d/v.mp3".toList]) "d".toList "v".toList [] []).1) ∧
    "d/v.mp3".toList = finalPath "d".toList "v".toList [] [] :=
  (download_song_safe (Except.ok ["d/v.mp3".toList]) "d".toList "v".toList [] []).1
    "d/v.mp3".toList (by decide)

/-- Helper: erasing the id just appended restores length and id count. -/
theorem erase_appended_aux (q : List String) (v : String) :
    ((q ++ [v]).erase v).length = q.length ∧
    ((q ++ [v]).erase v).count v = q.count v := by
  have hmem : v ∈ q ++ [v] := by simp
  constructor
  · rw [List.length_erase_of_mem hmem]
    simp
  · rw [List.count_erase_self]
    simp [List.count_append]

/-- Counterexample to C2 as stated: a request accepted into the queue whose
position notice raises (the chat transport call at bot.py line 42/44 is
outside any try) exits the pipeline with its id still in download_queue: the
queue length does not return to its pre-request value, so the id is not
removed exactly once on every exit path. -/
theorem release_exact_once_counterexample :
    (process_download exPipeState "x" true DlResult.noFile ThumbResult.noThumb
        SendResult.sentNoAudio).1.download_queue.length
      ≠ exPipeState.download_queue.length := by
  decide

/-- C2 amended: provided the position notice does not raise and download_song
returns normally (in the source it never raises, compare download_song_safe;
the notice however can raise), every exit path of an accepted request -
success, download failure, and an exception raised during delivery - gives
the admission slot back and removes the id exactly once: free permits, queue
length and the occurrence count of the id all return to their pre-request
values. -/
theorem slot_release_exact_once (s : PipeState) (video_id : String)
    (dl : DlResult) (thumb : ThumbResult) (send : SendResult)
    (hsem : 0 < s.semAvailable) (hdl : dl ≠ DlResult.raised) :
    (process_download s video_id false dl thumb send).1.semAvailable = s.semAvailable ∧
    (process_download s video_id false dl thumb send).1.download_queue.length
        = s.download_queue.length ∧
    (process_download s video_id false dl thumb send).1.download_queue.count video_id
        = s.download_queue.count video_id := by
  have hmem : video_id ∈ s.download_queue ++ [video_id] := by simp
  have hlen := (erase_appended_aux s.download_queue video_id).1
  have hcnt := (erase_appended_aux s.download_queue video_id).2
  cases dl with
  | raised => exact absurd rfl hdl
  | noFile =>
    refine ⟨?_, ?_, ?_⟩ <;>
      simp [process_download, enqueueTrack, hmem, hlen, hcnt, Nat.sub_add_cancel hsem]
  | got filepath =>
    cases thumb <;> cases send <;>
      (refine ⟨?_, ?_, ?_⟩ <;>
        simp [process_download, enqueueTrack, hmem, hlen, hcnt, Nat.sub_add_cancel hsem])

/-- Witness for C2 amended: a failed download on a fresh state restores the
permit count, the queue length and the id count. -/
theorem slot_release_exact_once_witness :
    (process_download exPipeState "x" false DlResult.noFile ThumbResult.noThumb
        SendResult.sentNoAudio).1.semAvailable = exPipeState.semAvailable ∧
    (process_download exPipeState "x" false DlResult.noFile ThumbResult.noThumb
        SendResult.sentNoAudio).1.download_queue.length
      = exPipeState.download_queue.length ∧
    (process_download exPipeState "x" false DlResult.noFile ThumbResult.noThumb
        SendResult.sentNoAudio).1.download_queue.count "x"
      = exPipeState.download_queue.count "x" :=
  slot_release_exact_once exPipeState "x" DlResult.noFile ThumbResult.noThumb
    SendResult.sentNoAudio (by decide) (by decide)

/-- Helper: erasing a freshly appended path recovers the original disk. -/
theorem erase_fresh_append_aux (l : List String) (p : String) (h : p ∉ l) :
    (l ++ [p]).erase p = l := by
  rw [List.erase_append_right _ h]
  simp

/-- Helper: cleanup of a freshly created file removes exactly that file. -/
theorem cleanup_fresh_aux (l : List String) (p : String) (hp : p ∉ l) :
    cleanup_file (l ++ [p]) p = l := by
  rw [cleanup_file, if_pos (by simp)]
  exact erase_fresh_append_aux l p hp

/-- Helper: the finally block of the got-branch with a thumbnail deletes both
temp files. -/
theorem files_final_aux (l : List String) (p tp : String) (hp : p ∉ l) (htp : tp ∉ l) :
    (cleanup_file ((l ++ [p]) ++ [tp]) p).erase tp = l := by
  have hmem : p ∈ (l ++ [p]) ++ [tp] := by simp
  rw [cleanup_file, if_pos hmem, List.erase_append_left _ (by simp : p ∈ l ++ [p]),
    erase_fresh_append_aux l p hp]
  exact erase_fresh_append_aux l tp htp

/-- C8: after any pipeline run - success, download failure, or an exception
during delivery - no temp file created by that run remains: assuming the
fresh temp paths of the run were not already on disk, the file list at exit
equals the file list before the run, so in particular the temp audio file is
gone; and cleanup_file on an already-missing file is tolerated, returning
the disk unchanged instead of raising. -/
theorem pipeline_cleanup (s : PipeState) (video_id : String)
    (answerRaises : Bool) (dl : DlResult) (thumb : ThumbResult) (send : SendResult)
    (hfresh : ∀ p, dl = DlResult.got p → p ∉ s.files)
    (hthumb : ∀ tp, thumb = ThumbResult.fetched tp → tp ∉ s.files) :
    (process_download s video_id answerRaises dl thumb send).1.files = s.files ∧
    (∀ p, dl = DlResult.got p →
      p ∉ (process_download s video_id answerRaises dl thumb send).1.files) ∧
    (∀ fs p, p ∉ fs → cleanup_file fs p = fs) := by
  have hfiles :
      (process_download s video_id answerRaises dl thumb send).1.files = s.files := by
    cases answerRaises with
    | true => simp [process_download]
    | false =>
      cases dl with
      | raised => simp [process_download]
      | noFile => simp [process_download]
      | got p =>
        have hp : p ∉ s.files := hfresh p rfl
        cases thumb with
        | noThumb =>
          cases send <;>
            simp only [process_download, enqueueTrack] <;>
            exact cleanup_fresh_aux s.files p hp
        | fetched tp =>
          have htp : tp ∉ s.files := hthumb tp rfl
          cases send <;>
            simp only [process_download, enqueueTrack] <;>
            exact files_final_aux s.files p tp hp htp
  refine ⟨hfiles, ?_, ?_⟩
  · intro p hdl
    rw [hfiles]
    exact hfresh p hdl
  · intro fs p hpf
    rw [cleanup_file, if_neg hpf]

/-- Witness for C8: a successful run that created an audio file and a
thumbnail leaves the disk exactly as before. -/
theorem pipeline_cleanup_witness :
    (process_download exPipeState "x" false (DlResult.got "a.mp3")
        (ThumbResult.fetched "t.jpg") (SendResult.sentAudio "f1")).1.files
      = exPipeState.files :=
  (pipeline_cleanup exPipeState "x" false (DlResult.got "a.mp3")
      (ThumbResult.fetched "t.jpg") (SendResult.sentAudio "f1")
      (by intro p hp; cases hp; decide)
      (by intro tp htp; cases htp; decide)).1

/-- Counterexample to C9 as stated: with an artist name of 4001 characters
the header is 4015 characters long, max_lyrics_len is the negative integer
-15, and the Python slice then keeps all but the last 15 characters of the
lyrics instead of keeping no characters: 100-character lyrics produce a
4103-character message, exceeding the claimed 4003 bound. -/
theorem lyrics_length_counterexample :
    4003 < (lyricsMessage exLongArtist [] (List.replicate 100 'x')).length := by
  have h1 : ("📝 <b>".toList).length = 5 := by decide
  have h2 : (" - ".toList).length = 3 := by decide
  have h3 : ("</b>\n\n".toList).length = 6 := by decide
  have h4 : ("...".toList).length = 3 := by decide
  have hA : exLongArtist.length = 4001 := by
    simp only [exLongArtist, List.length_replicate]
  have hH : (lyricsHeader exLongArtist []).length = 4015 := by
    simp only [lyricsHeader, List.length_append, List.length_nil, h1, h2, h3, hA]
  have hcond : ((List.replicate 100 'x').length : Int)
      > 4000 - ((lyricsHeader exLongArtist []).length : Int) := by
    rw [hH]
    simp only [List.length_replicate]
    omega
  simp only [lyricsMessage, if_pos hcond]
  rw [pySliceTo, if_neg (by rw [hH]; norm_num)]
  simp only [List.length_append, List.length_take, List.length_replicate, hH, h4]
  omega

/-- C9 amended: provided the header is at most 4000 characters (forced by the
counterexample, in which an over-long header makes the Python negative slice
keep text): lyrics longer than 4000 minus the header length are replaced by
exactly their first 4000-minus-header-length characters plus an ellipsis,
shorter lyrics are sent unmodified, and the message never exceeds 4003
characters. -/
theorem lyrics_truncation (artist title lyrics : List Char)
    (hh : (lyricsHeader artist title).length ≤ 4000) :
    (lyrics.length ≤ 4000 - (lyricsHeader artist title).length →
      lyricsMessage artist title lyrics = lyricsHeader artist title ++ lyrics) ∧
    (4000 - (lyricsHeader artist title).length < lyrics.length →
      lyricsMessage artist title lyrics
        = lyricsHeader artist title
          ++ (lyrics.take (4000 - (lyricsHeader artist title).length) ++ "...".toList)) ∧
    (lyricsMessage artist title lyrics).length ≤ 4003 := by
  have htoNat : ((4000 : Int) - ((lyricsHeader artist title).length : Int)).toNat
      = 4000 - (lyricsHeader artist title).length := by omega
  refine ⟨?_, ?_, ?_⟩
  · intro hle
    simp only [lyricsMessage]
    rw [if_neg (by omega)]
  · intro hgt
    simp only [lyricsMessage]
    rw [if_pos (by omega), pySliceTo, if_pos (by omega), htoNat]
  · by_cases hc : 4000 - (lyricsHeader artist title).length < lyrics.length
    · simp only [lyricsMessage]
      rw [if_pos (by omega), pySliceTo, if_pos (by omega), htoNat]
      simp only [List.length_append, List.length_take]
      have : ("...".toList).length = 3 := by decide
      omega
    · simp only [lyricsMessage]
      rw [if_neg (by omega)]
      simp only [List.length_append]
      omega

/-- Witness for C9 amended: a short lyrics text is sent unmodified. -/
theorem lyrics_truncation_witness :
    lyricsMessage "A".toList "T".toList "hello".toList
      = lyricsHeader "A".toList "T".toList ++ "hello".toList :=
  (lyrics_truncation "A".toList "T".toList "hello".toList (by decide)).1 (by decide)

/-- Helper: how List.set changes the count of an element. -/
theorem count_set_aux (l : List Phase) (i : Nat) (a c : Phase) (h : i < l.length) :
    (l.set i a).count c + (if l.get ⟨i, h⟩ = c then 1 else 0)
      = l.count c + (if a = c then 1 else 0) := by
  induction l generalizing i with
  | nil => cases h
  | cons x xs ih =>
    cases i with
    | zero =>
      have hg : (x :: xs).get ⟨0, h⟩ = x := rfl
      simp only [List.set_cons_zero, List.count_cons, beq_iff_eq, hg]
      omega
    | succ n =>
      have hn : n < xs.length := by
        simp only [List.length_cons] at h
        omega
      have hg : (x :: xs).get ⟨n + 1, h⟩ = xs.get ⟨n, hn⟩ := rfl
      have hx := ih n hn
      simp only [List.set_cons_succ, List.count_cons, beq_iff_eq, hg]
      simp only [beq_iff_eq] at hx
      omega

/-- Helper: the semaphore invariant of the admission controller: free permits
plus held slots always equal MAX_CONCURRENT_DOWNLOADS. -/
theorem sem_invariant_aux (s : Sys) (hr : Reach s) :
    s.sem + holdersCount s = MAX_CONCURRENT_DOWNLOADS := by
  induction hr with
  | init tasks h =>
    have hz : tasks.count Phase.holding = 0 := by
      rw [List.count_eq_zero]
      intro hmem
      exact absurd (h _ hmem) (by decide)
    simp [holdersCount, hz]
  | step s1 s2 hr hstep ih =>
    cases hstep with
    | enqueue i h hp =>
      have hc := count_set_aux s1.tasks i Phase.queued Phase.holding h
      rw [hp] at hc
      simp only [holdersCount] at ih ⊢
      simp at hc
      omega
    | acquire i h hp k hs =>
      have hc := count_set_aux s1.tasks i Phase.holding Phase.holding h
      rw [hp] at hc
      simp only [holdersCount] at ih ⊢
      simp at hc
      omega
    | release i h hp =>
      have hc := count_set_aux s1.tasks i Phase.finished Phase.holding h
      rw [hp] at hc
      simp only [holdersCount] at ih ⊢
      simp at hc
      omega

/-- C1: in every state reachable from a start state with all permits free
and any number of pending requests, at most MAX_CONCURRENT_DOWNLOADS tasks
hold an admission slot (passed the semaphore acquire, not yet released)
simultaneously. -/
theorem semaphore_bound (s : Sys) (hr : Reach s) :
    holdersCount s ≤ MAX_CONCURRENT_DOWNLOADS := by
  have := sem_invariant_aux s hr
  omega

/-- Witness for C1: a run in which one of the arrived tasks enqueues and then
acquires a slot reaches a state with one holder, within the bound. -/
theorem semaphore_bound_witness :
    holdersCount ⟨2, [Phase.holding]⟩ ≤ MAX_CONCURRENT_DOWNLOADS :=
  semaphore_bound ⟨2, [Phase.holding]⟩
    (Reach.step ⟨3, [Phase.queued]⟩ ⟨2, [Phase.holding]⟩
      (Reach.step ⟨3, [Phase.idle]⟩ ⟨3, [Phase.queued]⟩
        (Reach.init [Phase.idle] (by decide))
        (Step.enqueue ⟨3, [Phase.idle]⟩ 0 (by decide) (by decide)))
      (Step.acquire ⟨3, [Phase.queued]⟩ 0 (by decide) (by decide) 2 (by decide)))

end MusicBot
